import Mathlib

/-!
Verification of the lldebug remote-debugging transport
(src/lldebug/src/net/remoteengine.cpp) against its specification.

The development shallowly embeds the transport core:
* the command data model (RemoteCommandHeader / RemoteCommandData /
  RemoteCommand, as used by remoteengine.cpp; the header file is not part
  of the sources, so field types follow the spec: type tag, signed ctxId,
  unsigned commandId, unsigned dataSize);
* the SocketBase class (write FIFO queue, asynchronous read loop,
  close-on-error), modelled as a state structure plus one function per
  C++ member function, with the asynchronous completions as events of a
  step function;
* the RemoteEngine facade (command-id allocator, pending-response list,
  inbound queue, ctxId handshake state);
* the ContextSocket accept/wait logic, with wall-clock readings and
  poll_one outcomes supplied as an explicit trace.

Mutexes, condition variables and the io_service thread are concurrency
plumbing; the functional content of each operation is modelled, and the
asynchronous interleaving is captured by the explicit event traces.
-/

namespace lldebug

/-- Message-kind tags (the REMOTECOMMANDTYPE_* enumerators used in
remoteengine.cpp, prefix dropped). -/
inductive RemoteCommandType where
  | START_CONNECTION
  | END_CONNECTION
  | CHANGED_STATE
  | UPDATE_SOURCE
  | FORCE_UPDATESOURCE
  | ADDED_SOURCE
  | SAVE_SOURCE
  | SET_UPDATECOUNT
  | SET_BREAKPOINT
  | REMOVE_BREAKPOINT
  | CHANGED_BREAKPOINTLIST
  | BREAK
  | RESUME
  | STEPINTO
  | STEPOVER
  | STEPRETURN
  | OUTPUT_LOG
  | EVAL
  | REQUEST_FIELDSVARLIST
  | REQUEST_LOCALVARLIST
  | REQUEST_ENVIRONVARLIST
  | REQUEST_EVALVARLIST
  | REQUEST_GLOBALVARLIST
  | REQUEST_REGISTRYVARLIST
  | REQUEST_STACKLIST
  | VALUE_STRING
  | VALUE_VARLIST
  | VALUE_BACKTRACELIST
  | SUCCESSED
  | FAILED
deriving DecidableEq, Repr

/-- Opaque command payload; only its byte content (and hence size)
matters to the transport. -/
structure RemoteCommandData where
  bytes : List Nat
deriving DecidableEq, Repr

/-- RemoteCommandData::GetSize. -/
def RemoteCommandData.GetSize (d : RemoteCommandData) : Nat :=
  d.bytes.length

/-- The empty payload, RemoteCommandData(). -/
def RemoteCommandData.empty : RemoteCommandData := ⟨[]⟩

/-- The fixed-size command header: type tag, signed context (peer) id,
command id, payload byte count. -/
structure RemoteCommandHeader where
  type : RemoteCommandType
  ctxId : Int
  commandId : Nat
  dataSize : Nat
deriving DecidableEq, Repr

/-- A command: header, payload, and an optional response callback
(continuations are opaque to the transport; they are modelled as Nat
tokens so that states stay decidable). -/
structure RemoteCommand where
  header : RemoteCommandHeader
  data : RemoteCommandData
  response : Option Nat := none
deriving DecidableEq, Repr

def RemoteCommand.GetHeader (c : RemoteCommand) : RemoteCommandHeader := c.header

def RemoteCommand.GetCtxId (c : RemoteCommand) : Int := c.header.ctxId

def RemoteCommand.GetCommandId (c : RemoteCommand) : Nat := c.header.commandId

def RemoteCommand.GetDataSize (c : RemoteCommand) : Nat := c.header.dataSize

def RemoteCommand.GetType (c : RemoteCommand) : RemoteCommandType := c.header.type

/-- RemoteCommand::SetResponse. -/
def RemoteCommand.SetResponse (c : RemoteCommand) (r : Nat) : RemoteCommand :=
  { c with response := some r }

/-- An entry of RemoteEngine::m_waitResponseCommandList: the header of an
outbound command that expects a reply, plus its callback token. -/
structure WaitResponseCommand where
  header : RemoteCommandHeader
  response : Nat
deriving DecidableEq, Repr

/-- The RemoteEngine state: thread flag, command-id counter, negotiated
context id (sentinel -1), pending-response list, inbound command queue,
and the sequence of (header, data) pairs handed to m_socket->Write
(outbox, in call order). -/
structure EngineState where
  isThreadActive : Bool
  commandIdCounter : Nat
  ctxId : Int
  waitResponseCommandList : List WaitResponseCommand
  readCommandQueue : List RemoteCommand
  outbox : List (RemoteCommandHeader × RemoteCommandData)
deriving DecidableEq, Repr

/-- The RemoteEngine constructor state: thread inactive, counter 0,
ctxId -1 (remoteengine.cpp lines 366-369). -/
def RemoteEngine.init : EngineState :=
  { isThreadActive := false
    commandIdCounter := 0
    ctxId := -1
    waitResponseCommandList := []
    readCommandQueue := []
    outbox := [] }

/-- RemoteEngine::SetCtxId: overwrite m_ctxId whenever the new value
differs (the notify_all wakes waiting starters and is not modelled). -/
def SetCtxId (s : EngineState) (ctxId : Int) : EngineState :=
  if s.ctxId ≠ ctxId then { s with ctxId := ctxId } else s

/-- RemoteEngine::InitCommandHeader: build a header carrying the current
m_ctxId; commandId = 0 requests a fresh id from m_commandIdCounter,
which then advances by 2; a nonzero commandId is used as given.
Returns the header and the updated engine state. -/
def InitCommandHeader (s : EngineState) (type : RemoteCommandType)
    (dataSize : Nat) (commandId : Nat) : RemoteCommandHeader × EngineState :=
  if commandId = 0 then
    ({ type := type, ctxId := s.ctxId, commandId := s.commandIdCounter,
       dataSize := dataSize },
     { s with commandIdCounter := s.commandIdCounter + 2 })
  else
    ({ type := type, ctxId := s.ctxId, commandId := commandId,
       dataSize := dataSize }, s)

/-- The commandId values produced by n successive fresh allocations
through InitCommandHeader (commandId argument 0), starting from engine
state s. -/
def idsFrom (s : EngineState) (ty : RemoteCommandType) : Nat → List Nat
  | 0 => []
  | n + 1 =>
    let p := InitCommandHeader s ty 0 0
    p.1.commandId :: idsFrom p.2 ty n

/-- RemoteEngine::StartContext seeds m_commandIdCounter with 1 after the
listener connects (remoteengine.cpp line 394). -/
def StartContext.commandIdSeed : Nat := 1

/-- RemoteEngine::StartFrame seeds m_commandIdCounter with 2 after the
dialer connects (remoteengine.cpp line 433). -/
def StartFrame.commandIdSeed : Nat := 2

/-- The scan-and-erase loop of RemoteEngine::HandleReadCommand: walk the
pending-response list, remove the first entry whose (ctxId, commandId)
equals that of the received command, and return its callback token
together with the remaining list. -/
def removeFirstMatch (ctxId : Int) (commandId : Nat) :
    List WaitResponseCommand → Option Nat × List WaitResponseCommand
  | [] => (none, [])
  | w :: rest =>
    if ctxId = w.header.ctxId ∧ commandId = w.header.commandId then
      (some w.response, rest)
    else
      let p := removeFirstMatch ctxId commandId rest
      (p.1, w :: p.2)

/-- The command-type switch of RemoteEngine::HandleReadCommand
(lines 625-637): START_CONNECTION adopts the command's ctxId,
END_CONNECTION resets the ctxId to -1, and any other command adopts
the command's ctxId only while the engine's ctxId is still negative. -/
def dispatchCtx (s : EngineState) (command : RemoteCommand) : EngineState :=
  match command.GetType with
  | RemoteCommandType.START_CONNECTION => SetCtxId s command.GetCtxId
  | RemoteCommandType.END_CONNECTION => SetCtxId s (-1)
  | _ => if s.ctxId < 0 then SetCtxId s command.GetCtxId else s

/-- RemoteEngine::HandleReadCommand: correlate the received command with
the pending-response list (first match removed, callback attached),
update the ctxId handshake state by command type, and append the command
to the inbound queue. -/
def HandleReadCommand (s : EngineState) (command : RemoteCommand) : EngineState :=
  let p := removeFirstMatch command.GetCtxId command.GetCommandId
    s.waitResponseCommandList
  let command' : RemoteCommand :=
    match p.1 with
    | some r => command.SetResponse r
    | none => command
  let s₂ : EngineState :=
    dispatchCtx { s with waitResponseCommandList := p.2 } command'
  { s₂ with readCommandQueue := s₂.readCommandQueue ++ [command'] }

/-- RemoteEngine::WriteCommand (fire-and-forget overload): fresh-id
header via InitCommandHeader, then m_socket->Write(header, data). -/
def WriteCommand (s : EngineState) (ty : RemoteCommandType)
    (data : RemoteCommandData) : EngineState :=
  let p := InitCommandHeader s ty data.GetSize 0
  { p.2 with outbox := p.2.outbox ++ [(p.1, data)] }

/-- RemoteEngine::WriteCommand (overload with response callback):
fresh-id header, m_socket->Write, then record the pending response. -/
def WriteCommandWithResponse (s : EngineState) (ty : RemoteCommandType)
    (data : RemoteCommandData) (response : Nat) : EngineState :=
  let p := InitCommandHeader s ty data.GetSize 0
  { p.2 with
    outbox := p.2.outbox ++ [(p.1, data)]
    waitResponseCommandList :=
      p.2.waitResponseCommandList ++ [⟨p.1, response⟩] }

/-- RemoteEngine::WriteResponse: build the reply header through
InitCommandHeader, passing the original command's commandId, then
m_socket->Write(header, data). -/
def WriteResponse (s : EngineState) (readCommand : RemoteCommand)
    (ty : RemoteCommandType) (data : RemoteCommandData) : EngineState :=
  let p := InitCommandHeader s ty data.GetSize readCommand.GetCommandId
  { p.2 with outbox := p.2.outbox ++ [(p.1, data)] }

/-- An asynchronous write operation posted on the socket by
SocketBase::asyncWrite: the command whose bytes it writes, and the
deleteCommand flag bound into its handleWrite completion handler. -/
structure WriteOp where
  cmd : RemoteCommand
  deleteCommand : Bool
deriving DecidableEq, Repr

/-- SocketBase::asyncWrite: for a zero-payload command, post one
async_write of the header with deleteCommand = true; otherwise post the
header write (deleteCommand = false) immediately followed by the
payload write (deleteCommand = true). Returns the posted operations in
completion order. -/
def asyncWrite (command : RemoteCommand) : List WriteOp :=
  if command.GetDataSize = 0 then
    [⟨command, true⟩]
  else
    [⟨command, false⟩, ⟨command, true⟩]

/-- The SocketBase state: connected flag, the write command queue, the
asynchronous write operations in flight (in completion order), the
data-read in progress, whether the next header read is armed, the
engine state the socket delivers inbound commands to, and a closed
flag for m_socket.close(). The ghost fields sent and written record,
respectively, every command passed to doWrite in arrival order and
every command whose write fully completed (popped), in completion
order. -/
structure SocketBase where
  isConnected : Bool
  socketClosed : Bool
  writeCommandQueue : List RemoteCommand
  pendingWrites : List WriteOp
  pendingDataRead : Option RemoteCommand
  readArmed : Bool
  engine : EngineState
  sent : List RemoteCommand
  written : List RemoteCommand
deriving DecidableEq, Repr

/-- The SocketBase constructor state over a given engine state:
disconnected, empty queue, nothing in flight. -/
def SocketBase.init (e : EngineState) : SocketBase :=
  { isConnected := false
    socketClosed := false
    writeCommandQueue := []
    pendingWrites := []
    pendingDataRead := none
    readArmed := false
    engine := e
    sent := []
    written := [] }

/-- SocketBase::doClose: close the socket and clear the connected
flag. -/
def SocketBase.doClose (s : SocketBase) : SocketBase :=
  { s with socketClosed := true, isConnected := false }

/-- SocketBase::connected (posted by Connected/MarkConnected): on the
first transition only, set the connected flag and arm the continuous
read loop (asyncReadCommand). -/
def SocketBase.connected (s : SocketBase) : SocketBase :=
  if !s.isConnected then
    { s with isConnected := true, readArmed := true }
  else s

/-- SocketBase::doWrite (posted by Write): remember whether a write was
in progress (queue non-empty), push the command, and start an
asyncWrite of the queue front only if the queue was empty. -/
def SocketBase.doWrite (s : SocketBase) (command : RemoteCommand) : SocketBase :=
  let isProgress := !s.writeCommandQueue.isEmpty
  let s' := { s with
    writeCommandQueue := s.writeCommandQueue ++ [command]
    sent := s.sent ++ [command] }
  if isProgress then s'
  else { s' with pendingWrites := s'.pendingWrites ++ asyncWrite command }

/-- SocketBase::handleWrite: on error close; otherwise, if this was the
command's final write (deleteCommand), pop the queue and, if commands
remain, start the asyncWrite of the new front. -/
def SocketBase.handleWrite (s : SocketBase) (deleteCommand : Bool)
    (error : Bool) : SocketBase :=
  if error then s.doClose
  else if deleteCommand then
    let s' := { s with
      writeCommandQueue := s.writeCommandQueue.tail
      written := s.written ++ (s.writeCommandQueue.head?.toList) }
    match s'.writeCommandQueue with
    | [] => s'
    | c :: _ => { s' with pendingWrites := s'.pendingWrites ++ asyncWrite c }
  else s

/-- Completion of the oldest asynchronous write in flight: remove it
from the in-flight list and run its handleWrite handler with the given
error status. With no write in flight, nothing happens. -/
def SocketBase.completeWrite (s : SocketBase) (error : Bool) : SocketBase :=
  match s.pendingWrites with
  | [] => s
  | op :: rest =>
    SocketBase.handleWrite { s with pendingWrites := rest }
      op.deleteCommand error

/-- SocketBase::handleReadData: on success deliver the assembled
command to the engine and re-arm the next header read
(asyncReadCommand); on error close. -/
def SocketBase.handleReadData (s : SocketBase) (command : RemoteCommand)
    (error : Bool) : SocketBase :=
  if !error then
    { s with
      engine := HandleReadCommand s.engine command
      readArmed := true }
  else s.doClose

/-- SocketBase::handleReadCommand: on error close. On success, a
negative ctxId triggers doClose, and processing then continues as in
the source (there is no early return): a command with payload starts
the payload read, a zero-payload command is passed directly to
handleReadData with the same (success) error code. -/
def SocketBase.handleReadCommand (s : SocketBase) (command : RemoteCommand)
    (error : Bool) : SocketBase :=
  if !error then
    let s₁ := if command.GetCtxId < 0 then s.doClose else s
    if command.GetDataSize > 0 then
      { s₁ with pendingDataRead := some command }
    else
      SocketBase.handleReadData s₁ command error
  else s.doClose

/-- Completion of the header read armed by asyncReadCommand: the event
carries the decoded header; the freshly allocated command holds that
header and an empty payload, and handleReadCommand runs on it. Ignored
when no header read is armed. -/
def SocketBase.completeHeaderRead (s : SocketBase)
    (header : RemoteCommandHeader) (error : Bool) : SocketBase :=
  if s.readArmed then
    SocketBase.handleReadCommand { s with readArmed := false }
      { header := header, data := RemoteCommandData.empty } error
  else s

/-- Completion of the payload read: the event carries the bytes read
into the command's resized buffer, and handleReadData runs on the
completed command. Ignored when no payload read is pending. -/
def SocketBase.completeDataRead (s : SocketBase) (bytes : RemoteCommandData)
    (error : Bool) : SocketBase :=
  match s.pendingDataRead with
  | none => s
  | some c =>
    SocketBase.handleReadData { s with pendingDataRead := none }
      { c with data := bytes } error

/-- The asynchronous events a SocketBase reacts to: a posted Write
(doWrite), completion of the oldest write in flight, completion of the
armed header read, completion of the pending payload read, the posted
connected transition, and a posted Close. -/
inductive SocketEvent where
  | write (header : RemoteCommandHeader) (data : RemoteCommandData)
  | completeWrite (error : Bool)
  | headerRead (header : RemoteCommandHeader) (error : Bool)
  | dataRead (bytes : RemoteCommandData) (error : Bool)
  | connected
  | close
deriving DecidableEq, Repr

/-- One step of the socket's event loop. -/
def socketStep (s : SocketBase) : SocketEvent → SocketBase
  | SocketEvent.write header data => s.doWrite { header := header, data := data }
  | SocketEvent.completeWrite error => s.completeWrite error
  | SocketEvent.headerRead header error => s.completeHeaderRead header error
  | SocketEvent.dataRead bytes error => s.completeDataRead bytes error
  | SocketEvent.connected => s.connected
  | SocketEvent.close => s.doClose

/-- Run a socket from its constructor state through a list of events. -/
def socketRun (e : EngineState) (events : List SocketEvent) : SocketBase :=
  events.foldl socketStep (SocketBase.init e)

/-- Write-queue discipline: the asynchronous writes in flight are
exactly a completion-order suffix of the asyncWrite operations of the
current queue front — in particular every in-flight write belongs to
the front command, so at most one command is ever being written. -/
def pendingShapeOk (s : SocketBase) : Prop :=
  match s.writeCommandQueue with
  | [] => s.pendingWrites = []
  | c :: _ =>
    s.pendingWrites = [] ∨
    s.pendingWrites = [⟨c, true⟩] ∨
    s.pendingWrites = [⟨c, false⟩, ⟨c, true⟩]

/-- The ContextSocket (listener) state: the underlying SocketBase plus
whether an async_accept is outstanding on the acceptor. -/
structure ContextSocket where
  base : SocketBase
  acceptPending : Bool
deriving DecidableEq, Repr

/-- ContextSocket::handleAccept: on success mark the socket connected
(Connected); on failure re-issue the async_accept, leaving the
connection state untouched — an accept failure never terminates the
accept loop. -/
def ContextSocket.handleAccept (s : ContextSocket) (error : Bool) : ContextSocket :=
  if !error then
    { s with base := s.base.connected, acceptPending := false }
  else
    { s with acceptPending := true }

/-- One iteration of the Start wait loop, as observed from outside: the
wall-clock reading taken at the top of the iteration, and whether the
poll_one call of this iteration executed a completion that connected
the socket (a successful handleAccept). -/
structure PollStep where
  time : Int
  connects : Bool
deriving DecidableEq, Repr

/-- The blocking wait loop of ContextSocket::Start (lines 252-264):
while not connected, read the clock; if the deadline has passed return
-1; otherwise poll one completion (which may connect) and sleep.
The poll trace drives the loop; none means the trace ended with the
loop still running. -/
def startWaitLoop (endTime : Int) : List PollStep → Bool → Option Int
  | _, true => some 0
  | [], false => none
  | step :: rest, false =>
    if step.time ≥ endTime then some (-1)
    else startWaitLoop endTime rest step.connects

/-- ContextSocket::Start: issue the first async_accept, then, when
waitSeconds is non-negative, block in the wait loop with deadline
startTime + waitSeconds; a negative waitSeconds skips the wait entirely
and Start returns 0 at once. -/
def ContextSocket.Start (waitSeconds startTime : Int)
    (steps : List PollStep) : Option Int :=
  if waitSeconds ≥ 0 then
    startWaitLoop (startTime + waitSeconds) steps false
  else
    some 0

/-- Characterization used to state the Start timeout property: the wait
loop observes a clock reading at or past the deadline before any
iteration's poll connects. -/
def loopTimesOut (endTime : Int) : List PollStep → Bool
  | [] => false
  | step :: rest =>
    decide (step.time ≥ endTime) || (!step.connects && loopTimesOut endTime rest)

/-- Characterization used to state the Start success property: some
iteration's poll connects, with every clock reading up to and including
that iteration strictly before the deadline. -/
def loopConnects (endTime : Int) : List PollStep → Bool
  | [] => false
  | step :: rest =>
    decide (step.time < endTime) && (step.connects || loopConnects endTime rest)

/-- Concrete header used by witness runs: a zero-payload CHANGED_STATE
command. -/
def c1Header : RemoteCommandHeader :=
  { type := RemoteCommandType.CHANGED_STATE, ctxId := 0, commandId := 1,
    dataSize := 0 }

/-- The command built by SocketBase::Write from c1Header and an empty
payload. -/
def c1Command : RemoteCommand :=
  { header := c1Header, data := RemoteCommandData.empty }

/-- One-event run used by the C1 witness: a single Write posted on a
fresh socket. -/
def c1Run : SocketBase :=
  socketRun RemoteEngine.init [SocketEvent.write c1Header RemoteCommandData.empty]

/-- Engine state used by the C3 witness: two pending entries both
keyed by c1Header's (ctxId 0, commandId 1), with callback tokens 11
and 22. -/
def c3Engine : EngineState :=
  { RemoteEngine.init with
    waitResponseCommandList := [⟨c1Header, 11⟩, ⟨c1Header, 22⟩] }

/-- A received command whose commandId (9) matches no pending entry of
c3Engine. -/
def c3MissCommand : RemoteCommand :=
  { header := { c1Header with commandId := 9 },
    data := RemoteCommandData.empty }

/-- A zero-payload command whose header carries the negative ctxId -1
(the close signal). -/
def c4Command : RemoteCommand :=
  { header := { type := RemoteCommandType.CHANGED_STATE, ctxId := -1,
                commandId := 5, dataSize := 0 },
    data := RemoteCommandData.empty }

/-- A command with negative ctxId -2 and a 3-byte payload. -/
def c4DataCommand : RemoteCommand :=
  { header := { type := RemoteCommandType.EVAL, ctxId := -2,
                commandId := 6, dataSize := 3 },
    data := RemoteCommandData.empty }

/-- An engine whose peer identity has been negotiated to 7. -/
def engine7 : EngineState := { RemoteEngine.init with ctxId := 7 }

/-- A START_CONNECTION command carrying peer identity 7. -/
def c6Start : RemoteCommand :=
  { header := { type := RemoteCommandType.START_CONNECTION, ctxId := 7,
                commandId := 1, dataSize := 0 },
    data := RemoteCommandData.empty }

/-- An END_CONNECTION command. -/
def c6End : RemoteCommand :=
  { header := { type := RemoteCommandType.END_CONNECTION, ctxId := 7,
                commandId := 2, dataSize := 0 },
    data := RemoteCommandData.empty }

/-- An application command carrying peer identity 9. -/
def c6Other : RemoteCommand :=
  { header := { type := RemoteCommandType.CHANGED_STATE, ctxId := 9,
                commandId := 3, dataSize := 0 },
    data := RemoteCommandData.empty }

/-- A received command whose commandId is 0, the value that makes
InitCommandHeader allocate a fresh id. -/
def c8ZeroCommand : RemoteCommand :=
  { header := { type := RemoteCommandType.EVAL, ctxId := 0,
                commandId := 0, dataSize := 0 },
    data := RemoteCommandData.empty }

/-- A fresh listener socket used by the C9 witness. -/
def c9Socket : ContextSocket :=
  { base := SocketBase.init RemoteEngine.init, acceptPending := true }

/-- Correlation predicate of HandleReadCommand: the received command's
(ctxId, commandId) pair equals the pending entry's header pair. -/
def wMatches (cmd : RemoteCommand) (w : WaitResponseCommand) : Prop :=
  cmd.GetCtxId = w.header.ctxId ∧ cmd.GetCommandId = w.header.commandId

instance (cmd : RemoteCommand) (w : WaitResponseCommand) :
    Decidable (wMatches cmd w) :=
  inferInstanceAs (Decidable (And _ _))

/-! ### The write-queue invariant -/

/-- The write-side invariant: the fully written commands followed by
the queued commands are exactly the commands handed to doWrite, in
order (FIFO), and the in-flight writes obey the queue discipline. -/
def WriteInv (s : SocketBase) : Prop :=
  s.written ++ s.writeCommandQueue = s.sent ∧ pendingShapeOk s

theorem writeInv_congr (s s' : SocketBase)
    (h1 : s'.writeCommandQueue = s.writeCommandQueue)
    (h2 : s'.pendingWrites = s.pendingWrites)
    (h3 : s'.written = s.written) (h4 : s'.sent = s.sent)
    (h : WriteInv s) : WriteInv s' := by
  obtain ⟨hg, hp⟩ := h
  constructor
  · rw [h1, h3, h4]; exact hg
  · unfold pendingShapeOk at hp ⊢
    rw [h1, h2]; exact hp

theorem writeInv_init (e : EngineState) : WriteInv (SocketBase.init e) :=
  ⟨rfl, rfl⟩

theorem writeInv_doWrite (s : SocketBase) (c : RemoteCommand)
    (h : WriteInv s) : WriteInv (s.doWrite c) := by
  obtain ⟨hg, hp⟩ := h
  cases hq : s.writeCommandQueue with
  | nil =>
    have hp0 : s.pendingWrites = [] := by
      unfold pendingShapeOk at hp; rw [hq] at hp; exact hp
    rw [hq] at hg
    constructor
    · simp [SocketBase.doWrite, hq, hp0]
      simpa using hg
    · unfold pendingShapeOk
      simp [SocketBase.doWrite, hq, hp0, asyncWrite]
      by_cases hd : c.GetDataSize = 0 <;> simp [hd]
  | cons a t =>
    constructor
    · simp [SocketBase.doWrite, hq]
      rw [hq] at hg
      rw [← hg]
      simp
    · unfold pendingShapeOk at hp ⊢
      rw [hq] at hp
      simp [SocketBase.doWrite, hq]
      exact hp

theorem writeInv_completeWrite (s : SocketBase) (err : Bool)
    (h : WriteInv s) : WriteInv (s.completeWrite err) := by
  obtain ⟨hg, hp⟩ := h
  cases hpw : s.pendingWrites with
  | nil =>
    unfold SocketBase.completeWrite
    rw [hpw]
    exact ⟨hg, hp⟩
  | cons op rest =>
    cases hq : s.writeCommandQueue with
    | nil =>
      exfalso
      unfold pendingShapeOk at hp
      rw [hq] at hp
      rw [hpw] at hp
      exact List.cons_ne_nil _ _ hp
    | cons c t =>
      unfold pendingShapeOk at hp
      rw [hq, hpw] at hp
      rcases hp with hp | hp | hp
      · exact absurd hp (List.cons_ne_nil _ _)
      · -- only the final (deleteCommand) write of the front command is in flight
        have hop : op = WriteOp.mk c true ∧ rest = [] := by
          constructor
          · exact (List.cons_eq_cons.mp hp).1
          · exact (List.cons_eq_cons.mp hp).2
        obtain ⟨hop1, hop2⟩ := hop
        unfold SocketBase.completeWrite
        rw [hpw, hop1, hop2]
        cases err with
        | true =>
          constructor
          · simpa [SocketBase.handleWrite, SocketBase.doClose] using hg
          · unfold pendingShapeOk
            simp [SocketBase.handleWrite, SocketBase.doClose, hq]
        | false =>
          rw [hq] at hg
          cases t with
          | nil =>
            constructor
            · simpa [SocketBase.handleWrite, hq] using hg
            · unfold pendingShapeOk
              simp [SocketBase.handleWrite, hq]
          | cons c2 t2 =>
            constructor
            · simp [SocketBase.handleWrite, hq]
              rw [← hg]
            · unfold pendingShapeOk
              simp [SocketBase.handleWrite, hq, asyncWrite]
              by_cases hd : c2.GetDataSize = 0 <;> simp [hd]
      · -- header write and payload write of the front command in flight
        have hop1 : op = WriteOp.mk c false := (List.cons_eq_cons.mp hp).1
        have hop2 : rest = [WriteOp.mk c true] := (List.cons_eq_cons.mp hp).2
        unfold SocketBase.completeWrite
        rw [hpw, hop1, hop2]
        cases err with
        | true =>
          constructor
          · simpa [SocketBase.handleWrite, SocketBase.doClose] using hg
          · unfold pendingShapeOk
            simp [SocketBase.handleWrite, SocketBase.doClose, hq]
        | false =>
          constructor
          · simpa [SocketBase.handleWrite] using hg
          · unfold pendingShapeOk
            simp [SocketBase.handleWrite, hq]

theorem writeFields_doClose (s : SocketBase) :
    (s.doClose).writeCommandQueue = s.writeCommandQueue ∧
    (s.doClose).pendingWrites = s.pendingWrites ∧
    (s.doClose).written = s.written ∧ (s.doClose).sent = s.sent :=
  ⟨rfl, rfl, rfl, rfl⟩

theorem writeFields_handleReadData (s : SocketBase) (c : RemoteCommand)
    (err : Bool) :
    (s.handleReadData c err).writeCommandQueue = s.writeCommandQueue ∧
    (s.handleReadData c err).pendingWrites = s.pendingWrites ∧
    (s.handleReadData c err).written = s.written ∧
    (s.handleReadData c err).sent = s.sent := by
  unfold SocketBase.handleReadData
  cases err <;> simp [SocketBase.doClose]

theorem writeFields_handleReadCommand (s : SocketBase) (c : RemoteCommand)
    (err : Bool) :
    (s.handleReadCommand c err).writeCommandQueue = s.writeCommandQueue ∧
    (s.handleReadCommand c err).pendingWrites = s.pendingWrites ∧
    (s.handleReadCommand c err).written = s.written ∧
    (s.handleReadCommand c err).sent = s.sent := by
  unfold SocketBase.handleReadCommand
  cases err with
  | true => simp [SocketBase.doClose]
  | false =>
    by_cases hneg : c.GetCtxId < 0 <;>
      by_cases hd : c.GetDataSize > 0 <;>
        simp [hneg, hd, SocketBase.doClose, SocketBase.handleReadData]

theorem writeInv_step (s : SocketBase) (ev : SocketEvent)
    (h : WriteInv s) : WriteInv (socketStep s ev) := by
  cases ev with
  | write header data => exact writeInv_doWrite s _ h
  | completeWrite err => exact writeInv_completeWrite s err h
  | headerRead header err =>
    unfold socketStep SocketBase.completeHeaderRead
    by_cases hr : s.readArmed
    · simp only [hr, if_true]
      have hf := writeFields_handleReadCommand
        { s with readArmed := false }
        { header := header, data := RemoteCommandData.empty } err
      exact writeInv_congr _ _ hf.1 hf.2.1 hf.2.2.1 hf.2.2.2 h
    · simp only [hr, if_false]
      exact h
  | dataRead bytes err =>
    unfold socketStep SocketBase.completeDataRead
    cases hpd : s.pendingDataRead with
    | none => exact h
    | some c =>
      have hf := writeFields_handleReadData
        { s with pendingDataRead := none } { c with data := bytes } err
      exact writeInv_congr _ _ hf.1 hf.2.1 hf.2.2.1 hf.2.2.2 h
  | connected =>
    unfold socketStep SocketBase.connected
    by_cases hc : !s.isConnected
    · simp only [hc, if_true]
      exact writeInv_congr _ _ rfl rfl rfl rfl h
    · simp only [hc, if_false]
      exact h
  | close =>
    have hf := writeFields_doClose s
    exact writeInv_congr _ _ hf.1 hf.2.1 hf.2.2.1 hf.2.2.2 h

theorem writeInv_foldl (events : List SocketEvent) :
    ∀ s : SocketBase, WriteInv s → WriteInv (events.foldl socketStep s) := by
  induction events with
  | nil => intro s h; exact h
  | cons ev rest ih =>
    intro s h
    exact ih (socketStep s ev) (writeInv_step s ev h)

theorem writeInv_run (e : EngineState) (events : List SocketEvent) :
    WriteInv (socketRun e events) :=
  writeInv_foldl events (SocketBase.init e) (writeInv_init e)

theorem pendingShape_head (s : SocketBase) (op : WriteOp)
    (hp : pendingShapeOk s) (hm : op ∈ s.pendingWrites) :
    s.writeCommandQueue.head? = some op.cmd := by
  unfold pendingShapeOk at hp
  cases hq : s.writeCommandQueue with
  | nil =>
    rw [hq] at hp
    rw [hp] at hm
    cases hm
  | cons c t =>
    rw [hq] at hp
    have hp' : s.pendingWrites = [] ∨
        s.pendingWrites = [WriteOp.mk c true] ∨
        s.pendingWrites = [WriteOp.mk c false, WriteOp.mk c true] := hp
    rcases hp' with h | h | h
    · rw [h] at hm; cases hm
    · rw [h] at hm
      simp at hm
      simp [hq, hm]
    · rw [h] at hm
      simp at hm
      rcases hm with hm | hm <;> simp [hq, hm]

theorem doWrite_queue (t : SocketBase) (c : RemoteCommand) :
    (t.doWrite c).writeCommandQueue = t.writeCommandQueue ++ [c] := by
  unfold SocketBase.doWrite
  by_cases h : t.writeCommandQueue.isEmpty <;> simp [h]

theorem doWrite_pending_empty (t : SocketBase) (c : RemoteCommand)
    (h : t.writeCommandQueue = []) :
    (t.doWrite c).pendingWrites = t.pendingWrites ++ asyncWrite c := by
  unfold SocketBase.doWrite
  simp [h]

theorem doWrite_pending_nonempty (t : SocketBase) (c : RemoteCommand)
    (h : t.writeCommandQueue ≠ []) :
    (t.doWrite c).pendingWrites = t.pendingWrites := by
  unfold SocketBase.doWrite
  simp [h]

/-- C1: along every event sequence, the commands fully written plus the
commands still queued are exactly the commands handed to doWrite in
arrival order (FIFO send order is preserved by the write path); every
asynchronous write in flight belongs to the current queue front — the
header and payload writes of one command — so at most one command is
ever being written, and the next queued command's write starts only
when handleWrite pops its predecessor; a newly arriving command is
appended and begins a write exactly when the queue was empty. -/
theorem C1_write_fifo_single_in_flight (e : EngineState)
    (events : List SocketEvent) (op : WriteOp) (t : SocketBase)
    (c : RemoteCommand) :
    ((socketRun e events).written ++ (socketRun e events).writeCommandQueue =
      (socketRun e events).sent) ∧
    pendingShapeOk (socketRun e events) ∧
    (op ∈ (socketRun e events).pendingWrites →
      (socketRun e events).writeCommandQueue.head? = some op.cmd) ∧
    ((t.doWrite c).writeCommandQueue = t.writeCommandQueue ++ [c]) ∧
    (t.writeCommandQueue = [] →
      (t.doWrite c).pendingWrites = t.pendingWrites ++ asyncWrite c) ∧
    (t.writeCommandQueue ≠ [] →
      (t.doWrite c).pendingWrites = t.pendingWrites) := by
  obtain ⟨hg, hp⟩ := writeInv_run e events
  exact ⟨hg, hp, fun hm => pendingShape_head _ op hp hm,
    doWrite_queue t c, doWrite_pending_empty t c,
    doWrite_pending_nonempty t c⟩

/-- Witness for C1: on the concrete one-Write run the queued command is
in flight and owns the head, a doWrite on an empty queue starts the
write, and a doWrite on the resulting non-empty queue starts none. -/
theorem C1_write_fifo_single_in_flight_witness :
    (WriteOp.mk c1Command true ∈ c1Run.pendingWrites ∧
      c1Run.writeCommandQueue.head? = some (WriteOp.mk c1Command true).cmd) ∧
    ((SocketBase.init RemoteEngine.init).writeCommandQueue = [] ∧
      ((SocketBase.init RemoteEngine.init).doWrite c1Command).pendingWrites =
        (SocketBase.init RemoteEngine.init).pendingWrites ++ asyncWrite c1Command) ∧
    (c1Run.writeCommandQueue ≠ [] ∧
      (c1Run.doWrite c1Command).pendingWrites = c1Run.pendingWrites) :=
  ⟨⟨by decide,
    (C1_write_fifo_single_in_flight RemoteEngine.init
      [SocketEvent.write c1Header RemoteCommandData.empty]
      (WriteOp.mk c1Command true) c1Run c1Command).2.2.1 (by decide)⟩,
   ⟨by decide,
    (C1_write_fifo_single_in_flight RemoteEngine.init []
      (WriteOp.mk c1Command true) (SocketBase.init RemoteEngine.init)
      c1Command).2.2.2.2.1 (by decide)⟩,
   ⟨by decide,
    (C1_write_fifo_single_in_flight RemoteEngine.init []
      (WriteOp.mk c1Command true) c1Run
      c1Command).2.2.2.2.2 (by decide)⟩⟩

/-! ### Command-id allocation -/

theorem idsFrom_eq (ty : RemoteCommandType) :
    ∀ (n : Nat) (s : EngineState),
      idsFrom s ty n =
        (List.range n).map (fun k => s.commandIdCounter + 2 * k) := by
  intro n
  induction n with
  | zero => intro s; rfl
  | succ n ih =>
    intro s
    rw [idsFrom]
    simp only [InitCommandHeader, if_pos rfl]
    rw [ih]
    rw [List.range_succ_eq_map]
    simp [List.map_map]
    intro a _
    omega

/-- C2: the command-id counter is seeded 1 by StartContext (server
role) and 2 by StartFrame (client role); each fresh allocation through
InitCommandHeader returns the counter and advances it by 2, so the ids
a role generates are pairwise distinct, server ids are all odd, client
ids are all even, and the two roles can never produce the same id. -/
theorem C2_command_id_partition (s₁ s₂ : EngineState)
    (ty₁ ty₂ : RemoteCommandType) (d : Nat) (n m a b : Nat) :
    StartContext.commandIdSeed = 1 ∧
    StartFrame.commandIdSeed = 2 ∧
    (InitCommandHeader s₁ ty₁ d 0).1.commandId = s₁.commandIdCounter ∧
    (InitCommandHeader s₁ ty₁ d 0).2.commandIdCounter =
      s₁.commandIdCounter + 2 ∧
    (idsFrom { s₁ with commandIdCounter := StartContext.commandIdSeed } ty₁ n).Nodup ∧
    (idsFrom { s₂ with commandIdCounter := StartFrame.commandIdSeed } ty₂ m).Nodup ∧
    (a ∈ idsFrom { s₁ with commandIdCounter := StartContext.commandIdSeed } ty₁ n →
      a % 2 = 1) ∧
    (b ∈ idsFrom { s₂ with commandIdCounter := StartFrame.commandIdSeed } ty₂ m →
      b % 2 = 0) ∧
    (a ∈ idsFrom { s₁ with commandIdCounter := StartContext.commandIdSeed } ty₁ n →
      b ∈ idsFrom { s₂ with commandIdCounter := StartFrame.commandIdSeed } ty₂ m →
      a ≠ b) := by
  rw [idsFrom_eq, idsFrom_eq]
  simp only [StartContext.commandIdSeed, StartFrame.commandIdSeed]
  refine ⟨by trivial, by trivial, by simp [InitCommandHeader],
    by simp [InitCommandHeader], ?_, ?_, ?_, ?_, ?_⟩
  · exact (List.nodup_range n).map (fun x y h => by omega)
  · exact (List.nodup_range m).map (fun x y h => by omega)
  · intro ha
    simp at ha
    obtain ⟨k, _, hk⟩ := ha
    omega
  · intro hb
    simp at hb
    obtain ⟨k, _, hk⟩ := hb
    omega
  · intro ha hb
    simp at ha hb
    obtain ⟨k, _, hk⟩ := ha
    obtain ⟨j, _, hj⟩ := hb
    omega

/-- Witness for C2: with both engines fresh and three allocations per
side, id 3 is a server id (odd), id 4 is a client id (even), and they
differ. -/
theorem C2_command_id_partition_witness :
    (3 ∈ idsFrom { RemoteEngine.init with
        commandIdCounter := StartContext.commandIdSeed }
        RemoteCommandType.CHANGED_STATE 3 ∧ 3 % 2 = 1) ∧
    (4 ∈ idsFrom { RemoteEngine.init with
        commandIdCounter := StartFrame.commandIdSeed }
        RemoteCommandType.CHANGED_STATE 3 ∧ 4 % 2 = 0) ∧
    (3 : Nat) ≠ 4 :=
  ⟨⟨by decide,
    (C2_command_id_partition RemoteEngine.init RemoteEngine.init
      RemoteCommandType.CHANGED_STATE RemoteCommandType.CHANGED_STATE
      0 3 3 3 4).2.2.2.2.2.2.1 (by decide)⟩,
   ⟨by decide,
    (C2_command_id_partition RemoteEngine.init RemoteEngine.init
      RemoteCommandType.CHANGED_STATE RemoteCommandType.CHANGED_STATE
      0 3 3 3 4).2.2.2.2.2.2.2.1 (by decide)⟩,
   (C2_command_id_partition RemoteEngine.init RemoteEngine.init
      RemoteCommandType.CHANGED_STATE RemoteCommandType.CHANGED_STATE
      0 3 3 3 4).2.2.2.2.2.2.2.2 (by decide) (by decide)⟩

/-! ### Correlation and inbound dispatch -/

@[simp]
theorem SetResponse_GetType (c : RemoteCommand) (r : Nat) :
    (c.SetResponse r).GetType = c.GetType := rfl

@[simp]
theorem SetResponse_GetCtxId (c : RemoteCommand) (r : Nat) :
    (c.SetResponse r).GetCtxId = c.GetCtxId := rfl

@[simp]
theorem SetResponse_GetCommandId (c : RemoteCommand) (r : Nat) :
    (c.SetResponse r).GetCommandId = c.GetCommandId := rfl

@[simp]
theorem SetCtxId_waitList (s : EngineState) (i : Int) :
    (SetCtxId s i).waitResponseCommandList = s.waitResponseCommandList := by
  unfold SetCtxId
  split <;> rfl

@[simp]
theorem SetCtxId_readQueue (s : EngineState) (i : Int) :
    (SetCtxId s i).readCommandQueue = s.readCommandQueue := by
  unfold SetCtxId
  split <;> rfl

@[simp]
theorem SetCtxId_outbox (s : EngineState) (i : Int) :
    (SetCtxId s i).outbox = s.outbox := by
  unfold SetCtxId
  split <;> rfl

@[simp]
theorem SetCtxId_counter (s : EngineState) (i : Int) :
    (SetCtxId s i).commandIdCounter = s.commandIdCounter := by
  unfold SetCtxId
  split <;> rfl

@[simp]
theorem dispatchCtx_waitList (s : EngineState) (c : RemoteCommand) :
    (dispatchCtx s c).waitResponseCommandList = s.waitResponseCommandList := by
  unfold dispatchCtx
  split <;> (try split) <;> simp

@[simp]
theorem dispatchCtx_readQueue (s : EngineState) (c : RemoteCommand) :
    (dispatchCtx s c).readCommandQueue = s.readCommandQueue := by
  unfold dispatchCtx
  split <;> (try split) <;> simp

@[simp]
theorem dispatchCtx_outbox (s : EngineState) (c : RemoteCommand) :
    (dispatchCtx s c).outbox = s.outbox := by
  unfold dispatchCtx
  split <;> (try split) <;> simp

@[simp]
theorem dispatchCtx_counter (s : EngineState) (c : RemoteCommand) :
    (dispatchCtx s c).commandIdCounter = s.commandIdCounter := by
  unfold dispatchCtx
  split <;> (try split) <;> simp

theorem removeFirstMatch_none (cmd : RemoteCommand) :
    ∀ l : List WaitResponseCommand, (∀ w ∈ l, ¬ wMatches cmd w) →
      removeFirstMatch cmd.GetCtxId cmd.GetCommandId l = (none, l) := by
  intro l
  induction l with
  | nil => intro _; rfl
  | cons w rest ih =>
    intro h
    have hne : ¬(cmd.GetCtxId = w.header.ctxId ∧
        cmd.GetCommandId = w.header.commandId) :=
      h w (List.mem_cons_self w rest)
    rw [removeFirstMatch, if_neg hne,
      ih fun w' hw' => h w' (List.mem_cons_of_mem w hw')]

theorem removeFirstMatch_first (cmd : RemoteCommand)
    (w : WaitResponseCommand) (l₂ : List WaitResponseCommand) :
    ∀ l₁ : List WaitResponseCommand, (∀ w' ∈ l₁, ¬ wMatches cmd w') →
      wMatches cmd w →
      removeFirstMatch cmd.GetCtxId cmd.GetCommandId (l₁ ++ w :: l₂) =
        (some w.response, l₁ ++ l₂) := by
  intro l₁
  induction l₁ with
  | nil =>
    intro _ hw
    have hw' : cmd.GetCtxId = w.header.ctxId ∧
        cmd.GetCommandId = w.header.commandId := hw
    rw [List.nil_append, removeFirstMatch, if_pos hw', List.nil_append]
  | cons w₀ rest ih =>
    intro h hw
    have hne : ¬(cmd.GetCtxId = w₀.header.ctxId ∧
        cmd.GetCommandId = w₀.header.commandId) :=
      h w₀ (List.mem_cons_self w₀ rest)
    rw [List.cons_append, removeFirstMatch, if_neg hne,
      ih (fun w' hw' => h w' (List.mem_cons_of_mem w₀ hw')) hw]
    rfl

theorem HandleReadCommand_decomp (s : EngineState) (cmd : RemoteCommand) :
    (HandleReadCommand s cmd).waitResponseCommandList =
      (removeFirstMatch cmd.GetCtxId cmd.GetCommandId
        s.waitResponseCommandList).2 ∧
    (HandleReadCommand s cmd).readCommandQueue =
      s.readCommandQueue ++
        [match (removeFirstMatch cmd.GetCtxId cmd.GetCommandId
            s.waitResponseCommandList).1 with
          | some r => cmd.SetResponse r
          | none => cmd] := by
  unfold HandleReadCommand
  constructor
  · simp
  · simp

/-- C3: on receipt of a command the pending-request list is scanned in
order; if no entry's (peerId, commandId) pair equals the command's, the
list is unchanged and the command is appended to the inbound queue
unmodified (an unmatched reply is delivered as an unsolicited command,
not an error); if some entry matches, exactly the first such entry is
removed, its callback is attached to the command, and the command is
appended to the inbound queue. -/
theorem C3_correlation_first_match (s : EngineState) (cmd : RemoteCommand)
    (w : WaitResponseCommand) (l₁ l₂ : List WaitResponseCommand) :
    ((∀ w' ∈ s.waitResponseCommandList, ¬ wMatches cmd w') →
      (HandleReadCommand s cmd).waitResponseCommandList =
        s.waitResponseCommandList ∧
      (HandleReadCommand s cmd).readCommandQueue =
        s.readCommandQueue ++ [cmd]) ∧
    (s.waitResponseCommandList = l₁ ++ w :: l₂ →
      (∀ w' ∈ l₁, ¬ wMatches cmd w') → wMatches cmd w →
      (HandleReadCommand s cmd).waitResponseCommandList = l₁ ++ l₂ ∧
      (HandleReadCommand s cmd).readCommandQueue =
        s.readCommandQueue ++ [cmd.SetResponse w.response]) := by
  obtain ⟨hwl, hrq⟩ := HandleReadCommand_decomp s cmd
  constructor
  · intro hnone
    rw [removeFirstMatch_none cmd s.waitResponseCommandList hnone] at hwl hrq
    exact ⟨hwl, hrq⟩
  · intro hsplit hl₁ hw
    rw [hsplit, removeFirstMatch_first cmd w l₂ l₁ hl₁ hw] at hwl hrq
    exact ⟨hwl, hrq⟩

/-- Witness for C3: a concrete engine with two pending entries for
(ctxId 0, commandId 1); the received command removes only the first and
is queued with that entry's callback; a command with a different id
leaves the list intact and is queued unmodified. -/
theorem C3_correlation_first_match_witness :
    ((∀ w' ∈ c3Engine.waitResponseCommandList, ¬ wMatches c3MissCommand w') ∧
      (HandleReadCommand c3Engine c3MissCommand).waitResponseCommandList =
        [⟨c1Header, 11⟩, ⟨c1Header, 22⟩]) ∧
    ((HandleReadCommand c3Engine c1Command).waitResponseCommandList =
        [⟨c1Header, 22⟩] ∧
      (HandleReadCommand c3Engine c1Command).readCommandQueue =
        [c1Command.SetResponse 11]) := by
  refine ⟨⟨by decide, ?_⟩, ?_, ?_⟩
  · exact ((C3_correlation_first_match c3Engine c3MissCommand
      ⟨c1Header, 11⟩ [] [⟨c1Header, 22⟩]).1 (by decide)).1
  · exact ((C3_correlation_first_match c3Engine c1Command
      ⟨c1Header, 11⟩ [] [⟨c1Header, 22⟩]).2 (by decide)
      (by decide) (by decide)).1
  · exact ((C3_correlation_first_match c3Engine c1Command
      ⟨c1Header, 11⟩ [] [⟨c1Header, 22⟩]).2 (by decide)
      (by decide) (by decide)).2

/-! ### Negative peerId handling and error handling -/

/-- C4 counterexample: handleReadCommand on a successfully read header
with ctxId -1 and no payload does close the socket, but processing of
the command continues — the command is still delivered to the engine's
inbound queue and the next header read is re-armed, because the source
has no early return after the doClose call (lines 117-119). -/
theorem C4_close_signal_counterexample :
    ((SocketBase.init RemoteEngine.init).handleReadCommand c4Command
      false).socketClosed = true ∧
    ((SocketBase.init RemoteEngine.init).handleReadCommand c4Command
      false).isConnected = false ∧
    ((SocketBase.init RemoteEngine.init).handleReadCommand c4Command
      false).engine.readCommandQueue = [c4Command] ∧
    ((SocketBase.init RemoteEngine.init).handleReadCommand c4Command
      false).readArmed = true := by
  decide

/-- C4 (amended): a successfully read header with negative ctxId
triggers immediate close — socket closed, connected flag false —
without waiting for a socket error; however, processing of the command
continues: a zero-payload command is still delivered to the engine and
the next header read re-armed, and a command with payload still has its
payload read issued on the closed socket. -/
theorem C4_negative_peer_closes (s : SocketBase) (cmd : RemoteCommand)
    (hneg : cmd.GetCtxId < 0) :
    (s.handleReadCommand cmd false).socketClosed = true ∧
    (s.handleReadCommand cmd false).isConnected = false ∧
    (cmd.GetDataSize = 0 →
      (s.handleReadCommand cmd false).engine =
        HandleReadCommand s.engine cmd ∧
      (s.handleReadCommand cmd false).readArmed = true) ∧
    (cmd.GetDataSize ≠ 0 →
      (s.handleReadCommand cmd false).pendingDataRead = some cmd) := by
  by_cases hd : cmd.GetDataSize = 0 <;>
    simp [SocketBase.handleReadCommand, SocketBase.handleReadData,
      SocketBase.doClose, hneg, hd, Nat.pos_of_ne_zero]

/-- Witness for the amended C4 theorem: the zero-payload close-signal
command is delivered despite the close, and the payload-carrying one
leaves its payload read pending. -/
theorem C4_negative_peer_closes_witness :
    (c4Command.GetCtxId < 0 ∧
      ((SocketBase.init RemoteEngine.init).handleReadCommand c4Command
        false).isConnected = false ∧
      (c4Command.GetDataSize = 0 ∧
        ((SocketBase.init RemoteEngine.init).handleReadCommand c4Command
          false).readArmed = true)) ∧
    (c4DataCommand.GetCtxId < 0 ∧ c4DataCommand.GetDataSize ≠ 0 ∧
      ((SocketBase.init RemoteEngine.init).handleReadCommand c4DataCommand
        false).pendingDataRead = some c4DataCommand) :=
  ⟨⟨by decide,
    (C4_negative_peer_closes (SocketBase.init RemoteEngine.init) c4Command
      (by decide)).2.1,
    by decide,
    ((C4_negative_peer_closes (SocketBase.init RemoteEngine.init) c4Command
      (by decide)).2.2.1 (by decide)).2⟩,
   by decide, by decide,
   (C4_negative_peer_closes (SocketBase.init RemoteEngine.init) c4DataCommand
     (by decide)).2.2.2 (by decide)⟩

/-- C5: every failed I/O completion — header read, payload read, or
write — runs exactly doClose: the socket is closed and the connected
flag cleared, and nothing else changes (the queue, the delivered
commands and the engine state are untouched, so no partial-command
recovery is attempted and no error escapes as an exception: the failure
is observable only through the connected flag). -/
theorem C5_failure_closes_socket (s : SocketBase) (cmd : RemoteCommand)
    (d : Bool) :
    s.handleReadCommand cmd true = s.doClose ∧
    s.handleReadData cmd true = s.doClose ∧
    s.handleWrite d true = s.doClose ∧
    (s.doClose).isConnected = false ∧
    (s.doClose).socketClosed = true ∧
    (s.doClose).writeCommandQueue = s.writeCommandQueue ∧
    (s.doClose).engine = s.engine ∧
    (s.doClose).written = s.written ∧
    (s.doClose).sent = s.sent := by
  refine ⟨?_, ?_, ?_, rfl, rfl, rfl, rfl, rfl, rfl⟩
  · simp [SocketBase.handleReadCommand]
  · simp [SocketBase.handleReadData]
  · simp [SocketBase.handleWrite]

/-! ### Peer identity handshake -/

@[simp]
theorem SetCtxId_ctxId (s : EngineState) (i : Int) :
    (SetCtxId s i).ctxId = i := by
  unfold SetCtxId
  split
  · rfl
  · next h => exact (not_not.mp h).symm ▸ rfl

theorem dispatchCtx_SetResponse (s : EngineState) (c : RemoteCommand)
    (r : Nat) : dispatchCtx s (c.SetResponse r) = dispatchCtx s c := by
  unfold dispatchCtx
  rw [SetResponse_GetType, SetResponse_GetCtxId]

theorem HandleReadCommand_ctxId (s : EngineState) (cmd : RemoteCommand) :
    (HandleReadCommand s cmd).ctxId =
      (dispatchCtx { s with waitResponseCommandList :=
        (removeFirstMatch cmd.GetCtxId cmd.GetCommandId
          s.waitResponseCommandList).2 } cmd).ctxId := by
  unfold HandleReadCommand
  cases hr : (removeFirstMatch cmd.GetCtxId cmd.GetCommandId
      s.waitResponseCommandList).1 <;>
    simp [hr, dispatchCtx_SetResponse]

theorem dispatchCtx_default (s : EngineState) (c : RemoteCommand)
    (h1 : c.GetType ≠ RemoteCommandType.START_CONNECTION)
    (h2 : c.GetType ≠ RemoteCommandType.END_CONNECTION) :
    dispatchCtx s c = if s.ctxId < 0 then SetCtxId s c.GetCtxId else s := by
  unfold dispatchCtx
  cases hty : c.GetType <;> simp_all

theorem handleRead_ctxId_preserved (s : EngineState) (cmd : RemoteCommand)
    (h1 : cmd.GetType ≠ RemoteCommandType.START_CONNECTION)
    (h2 : cmd.GetType ≠ RemoteCommandType.END_CONNECTION)
    (h0 : 0 ≤ s.ctxId) :
    (HandleReadCommand s cmd).ctxId = s.ctxId := by
  rw [HandleReadCommand_ctxId, dispatchCtx_default _ _ h1 h2]
  simp only []
  rw [if_neg (by simp; omega)]

/-- C6: the inbound dispatch of HandleReadCommand updates the peer
identity as the spec states — a START_CONNECTION sets it to the
command's peerId, an END_CONNECTION clears it back to the sentinel -1,
any other command adopts the command's peerId when the identity is
still unset (negative), and leaves it alone when it is already set. -/
theorem C6_identity_dispatch (s : EngineState) (cmd : RemoteCommand) :
    (cmd.GetType = RemoteCommandType.START_CONNECTION →
      (HandleReadCommand s cmd).ctxId = cmd.GetCtxId) ∧
    (cmd.GetType = RemoteCommandType.END_CONNECTION →
      (HandleReadCommand s cmd).ctxId = -1) ∧
    (cmd.GetType ≠ RemoteCommandType.START_CONNECTION →
      cmd.GetType ≠ RemoteCommandType.END_CONNECTION → s.ctxId < 0 →
      (HandleReadCommand s cmd).ctxId = cmd.GetCtxId) ∧
    (cmd.GetType ≠ RemoteCommandType.START_CONNECTION →
      cmd.GetType ≠ RemoteCommandType.END_CONNECTION → 0 ≤ s.ctxId →
      (HandleReadCommand s cmd).ctxId = s.ctxId) := by
  rw [HandleReadCommand_ctxId]
  refine ⟨?_, ?_, ?_, ?_⟩
  · intro h
    unfold dispatchCtx
    simp only [h]
    simp
  · intro h
    unfold dispatchCtx
    simp only [h]
    simp
  · intro h1 h2 hneg
    rw [dispatchCtx_default _ _ h1 h2]
    simp [hneg]
  · intro h1 h2 hpos
    rw [dispatchCtx_default _ _ h1 h2]
    simp only []
    rw [if_neg (by simp; omega)]

/-- Witness for C6: the four dispatch cases at concrete inputs — a
START_CONNECTION with peerId 7 on a fresh engine, an END_CONNECTION on
an engine with identity 7, an application command with peerId 9 on a
fresh engine (adopted), and the same command on the engine with
identity 7 (ignored). -/
theorem C6_identity_dispatch_witness :
    (c6Start.GetType = RemoteCommandType.START_CONNECTION ∧
      (HandleReadCommand RemoteEngine.init c6Start).ctxId = 7) ∧
    (c6End.GetType = RemoteCommandType.END_CONNECTION ∧
      (HandleReadCommand engine7 c6End).ctxId = -1) ∧
    (RemoteEngine.init.ctxId < 0 ∧
      (HandleReadCommand RemoteEngine.init c6Other).ctxId = 9) ∧
    (0 ≤ engine7.ctxId ∧
      (HandleReadCommand engine7 c6Other).ctxId = 7) :=
  ⟨⟨by decide, (C6_identity_dispatch RemoteEngine.init c6Start).1 (by decide)⟩,
   ⟨by decide, (C6_identity_dispatch engine7 c6End).2.1 (by decide)⟩,
   ⟨by decide, (C6_identity_dispatch RemoteEngine.init c6Other).2.2.1
     (by decide) (by decide) (by decide)⟩,
   ⟨by decide, (C6_identity_dispatch engine7 c6Other).2.2.2
     (by decide) (by decide) (by decide)⟩⟩

/-- C7 counterexample: the peer identity is not immutable once set to a
non-negative value — receiving an END_CONNECTION command on an engine
whose identity is 7 resets it to -1 (HandleReadCommand calls
SetCtxId(-1), and SetCtxId has no write-once guard). -/
theorem C7_ctxId_immutable_counterexample :
    engine7.ctxId = 7 ∧ 0 ≤ engine7.ctxId ∧
    (HandleReadCommand engine7 c6End).ctxId = -1 := by
  decide

/-- C7 (amended): once the peer identity is non-negative it is changed
only by a received START_CONNECTION or END_CONNECTION command: every
other received command leaves it unchanged, and the outbound operations
(InitCommandHeader, WriteCommand in both forms, WriteResponse) never
touch it. -/
theorem C7_ctxId_stable_amended (s : EngineState) (cmd rc : RemoteCommand)
    (ty : RemoteCommandType) (d : RemoteCommandData) (r cid : Nat)
    (h0 : 0 ≤ s.ctxId)
    (h1 : cmd.GetType ≠ RemoteCommandType.START_CONNECTION)
    (h2 : cmd.GetType ≠ RemoteCommandType.END_CONNECTION) :
    (HandleReadCommand s cmd).ctxId = s.ctxId ∧
    (InitCommandHeader s ty d.GetSize cid).2.ctxId = s.ctxId ∧
    (WriteCommand s ty d).ctxId = s.ctxId ∧
    (WriteCommandWithResponse s ty d r).ctxId = s.ctxId ∧
    (WriteResponse s rc ty d).ctxId = s.ctxId := by
  refine ⟨handleRead_ctxId_preserved s cmd h1 h2 h0, ?_, ?_, ?_, ?_⟩ <;>
    simp [InitCommandHeader, WriteCommand, WriteCommandWithResponse,
      WriteResponse] <;> split <;> simp

/-- Witness for the amended C7 theorem: on the engine with identity 7,
a CHANGED_STATE command and each outbound operation leave the identity
at 7. -/
theorem C7_ctxId_stable_amended_witness :
    (0 ≤ engine7.ctxId ∧
      c6Other.GetType ≠ RemoteCommandType.START_CONNECTION ∧
      c6Other.GetType ≠ RemoteCommandType.END_CONNECTION) ∧
    (HandleReadCommand engine7 c6Other).ctxId = engine7.ctxId ∧
    (WriteCommand engine7 RemoteCommandType.BREAK
      RemoteCommandData.empty).ctxId = engine7.ctxId :=
  ⟨⟨by decide, by decide, by decide⟩,
   (C7_ctxId_stable_amended engine7 c6Other c1Command
     RemoteCommandType.BREAK RemoteCommandData.empty 0 0
     (by decide) (by decide) (by decide)).1,
   (C7_ctxId_stable_amended engine7 c6Other c1Command
     RemoteCommandType.BREAK RemoteCommandData.empty 0 0
     (by decide) (by decide) (by decide)).2.2.1⟩

/-! ### Reply correlation and outbound headers -/

/-- C8 counterexample: replying to a received command whose commandId
is 0 does consult the fresh-id allocator — InitCommandHeader treats a
commandId argument of 0 as a request for a new id, so the reply carries
the counter value (1, not 0) and the counter advances to 3. -/
theorem C8_reply_id_counterexample :
    c8ZeroCommand.GetCommandId = 0 ∧
    (WriteResponse { RemoteEngine.init with commandIdCounter := 1 }
      c8ZeroCommand RemoteCommandType.VALUE_STRING
      RemoteCommandData.empty).outbox.map (fun e => e.1.commandId) = [1] ∧
    (WriteResponse { RemoteEngine.init with commandIdCounter := 1 }
      c8ZeroCommand RemoteCommandType.VALUE_STRING
      RemoteCommandData.empty).commandIdCounter = 3 := by
  decide

/-- C8 (amended): for every received command whose commandId is
nonzero — which is every id the engines themselves allocate, since
both role seeds are positive — the WriteResponse reply reuses exactly
the original command's commandId and leaves the fresh-id counter
untouched; only the degenerate commandId 0 would trigger a fresh
allocation. -/
theorem C8_reply_reuses_command_id (s : EngineState) (rc : RemoteCommand)
    (ty : RemoteCommandType) (d : RemoteCommandData)
    (h : rc.GetCommandId ≠ 0) :
    (WriteResponse s rc ty d).outbox =
      s.outbox ++ [({ type := ty, ctxId := s.ctxId,
                      commandId := rc.GetCommandId,
                      dataSize := d.GetSize }, d)] ∧
    (WriteResponse s rc ty d).commandIdCounter = s.commandIdCounter := by
  unfold WriteResponse InitCommandHeader
  simp [h]

/-- Witness for the amended C8 theorem: replying to the commandId-1
command appends a header reusing id 1 and keeps the counter at 0. -/
theorem C8_reply_reuses_command_id_witness :
    c1Command.GetCommandId ≠ 0 ∧
    (WriteResponse RemoteEngine.init c1Command
      RemoteCommandType.VALUE_STRING RemoteCommandData.empty).outbox =
      [({ type := RemoteCommandType.VALUE_STRING, ctxId := -1,
          commandId := 1, dataSize := 0 }, RemoteCommandData.empty)] ∧
    (WriteResponse RemoteEngine.init c1Command
      RemoteCommandType.VALUE_STRING
      RemoteCommandData.empty).commandIdCounter = 0 :=
  ⟨by decide,
   (C8_reply_reuses_command_id RemoteEngine.init c1Command
     RemoteCommandType.VALUE_STRING RemoteCommandData.empty (by decide)).1,
   (C8_reply_reuses_command_id RemoteEngine.init c1Command
     RemoteCommandType.VALUE_STRING RemoteCommandData.empty (by decide)).2⟩

/-! ### Listener Start semantics -/

theorem startWaitLoop_connected (endTime : Int) (steps : List PollStep) :
    startWaitLoop endTime steps true = some 0 := by
  cases steps <;> rfl

theorem startWaitLoop_timesOut (endTime : Int) :
    ∀ steps : List PollStep,
      (startWaitLoop endTime steps false = some (-1)) ↔
        loopTimesOut endTime steps = true := by
  intro steps
  induction steps with
  | nil => simp [startWaitLoop, loopTimesOut]
  | cons st rest ih =>
    rw [startWaitLoop, loopTimesOut]
    by_cases ht : st.time ≥ endTime
    · simp [ht]
    · cases hc : st.connects
      · simpa [ht, hc] using ih
      · simp [ht, hc, startWaitLoop_connected]

theorem startWaitLoop_connects (endTime : Int) :
    ∀ steps : List PollStep,
      (startWaitLoop endTime steps false = some 0) ↔
        loopConnects endTime steps = true := by
  intro steps
  induction steps with
  | nil => simp [startWaitLoop, loopConnects]
  | cons st rest ih =>
    rw [startWaitLoop, loopConnects]
    by_cases ht : st.time ≥ endTime
    · simp [ht, show ¬ st.time < endTime by omega]
    · cases hc : st.connects
      · simpa [ht, hc, show st.time < endTime by omega] using ih
      · simp [ht, hc, show st.time < endTime by omega, startWaitLoop_connected]

theorem connected_isConnected (s : SocketBase) :
    (s.connected).isConnected = true := by
  unfold SocketBase.connected
  by_cases h : s.isConnected <;> simp [h]

/-- C9: ContextSocket::Start with a negative timeout returns at once
without entering the wait loop; with a non-negative timeout it returns
failure (-1) exactly when the loop observes a clock reading at or past
startTime + timeout before any poll connects, and success (0) exactly
when a poll connects while every reading stays below the deadline;
a failed accept only re-issues the async_accept — it never changes the
connection state and never by itself makes Start return failure. -/
theorem C9_listener_start (w t : Int) (steps : List PollStep)
    (cs : ContextSocket) :
    (w < 0 → ContextSocket.Start w t steps = some 0) ∧
    (0 ≤ w → ((ContextSocket.Start w t steps = some (-1)) ↔
      loopTimesOut (t + w) steps = true)) ∧
    (0 ≤ w → ((ContextSocket.Start w t steps = some 0) ↔
      loopConnects (t + w) steps = true)) ∧
    ((cs.handleAccept true).acceptPending = true ∧
      (cs.handleAccept true).base = cs.base ∧
      (cs.handleAccept false).base.isConnected = true) := by
  refine ⟨?_, ?_, ?_, ?_, ?_, ?_⟩
  · intro hw
    unfold ContextSocket.Start
    rw [if_neg (by omega)]
  · intro hw
    unfold ContextSocket.Start
    rw [if_pos (by omega)]
    exact startWaitLoop_timesOut (t + w) steps
  · intro hw
    unfold ContextSocket.Start
    rw [if_pos (by omega)]
    exact startWaitLoop_connects (t + w) steps
  · simp [ContextSocket.handleAccept]
  · simp [ContextSocket.handleAccept]
  · simp [ContextSocket.handleAccept, connected_isConnected]

/-- Witness for C9: with timeout -1 Start returns 0 at once; with
timeout 2 from time 0, a trace whose readings reach the deadline
unconnected makes Start return -1, and a trace that connects at time 1
makes it return 0. -/
theorem C9_listener_start_witness :
    ((-1 : Int) < 0 ∧ ContextSocket.Start (-1) 0 [] = some 0) ∧
    (0 ≤ (2 : Int) ∧
      (ContextSocket.Start 2 0 [⟨0, false⟩, ⟨2, false⟩] = some (-1) ↔
        loopTimesOut 2 [⟨0, false⟩, ⟨2, false⟩] = true)) ∧
    (ContextSocket.Start 2 0 [⟨0, false⟩, ⟨1, true⟩] = some 0 ↔
      loopConnects 2 [⟨0, false⟩, ⟨1, true⟩] = true) :=
  ⟨⟨by decide,
    (C9_listener_start (-1) 0 [] c9Socket).1 (by decide)⟩,
   ⟨by decide,
    (C9_listener_start 2 0 [⟨0, false⟩, ⟨2, false⟩] c9Socket).2.1 (by decide)⟩,
   (C9_listener_start 2 0 [⟨0, false⟩, ⟨1, true⟩] c9Socket).2.2.1 (by decide)⟩

/-! ### Outbound commands carry the current peer identity -/

/-- C10: both WriteCommand overloads build their header through
InitCommandHeader with commandId 0, so the header sent carries the
engine's current ctxId (and a fresh commandId); on the engine's
constructor state the ctxId is the unset sentinel -1, so a command sent
before identity negotiation carries a negative peerId — which the
receiving SocketBase::handleReadCommand treats as a close signal,
closing its socket. -/
theorem C10_outbound_carries_ctxId (s : EngineState)
    (ty : RemoteCommandType) (d : RemoteCommandData) (r : Nat)
    (sb : SocketBase) (cmd : RemoteCommand) :
    (WriteCommand s ty d).outbox =
      s.outbox ++ [({ type := ty, ctxId := s.ctxId,
                      commandId := s.commandIdCounter,
                      dataSize := d.GetSize }, d)] ∧
    (WriteCommandWithResponse s ty d r).outbox =
      s.outbox ++ [({ type := ty, ctxId := s.ctxId,
                      commandId := s.commandIdCounter,
                      dataSize := d.GetSize }, d)] ∧
    RemoteEngine.init.ctxId = -1 ∧
    (cmd.GetCtxId < 0 →
      (sb.handleReadCommand cmd false).socketClosed = true ∧
      (sb.handleReadCommand cmd false).isConnected = false) := by
  refine ⟨?_, ?_, rfl, ?_⟩
  · unfold WriteCommand InitCommandHeader
    simp
  · unfold WriteCommandWithResponse InitCommandHeader
    simp
  · intro hneg
    by_cases hd : cmd.GetDataSize = 0 <;>
      simp [SocketBase.handleReadCommand, SocketBase.handleReadData,
        SocketBase.doClose, hneg, hd, Nat.pos_of_ne_zero]

/-- Witness for C10: a BREAK command written on the constructor-state
engine goes out with ctxId -1, and a receiving socket that reads such a
header closes itself. -/
theorem C10_outbound_carries_ctxId_witness :
    (WriteCommand RemoteEngine.init RemoteCommandType.BREAK
      RemoteCommandData.empty).outbox =
      [({ type := RemoteCommandType.BREAK, ctxId := -1, commandId := 0,
          dataSize := 0 }, RemoteCommandData.empty)] ∧
    (c4Command.GetCtxId < 0 ∧
      ((SocketBase.init RemoteEngine.init).handleReadCommand c4Command
        false).socketClosed = true) :=
  ⟨(C10_outbound_carries_ctxId RemoteEngine.init RemoteCommandType.BREAK
      RemoteCommandData.empty 0 (SocketBase.init RemoteEngine.init)
      c4Command).1,
   by decide,
   ((C10_outbound_carries_ctxId RemoteEngine.init RemoteCommandType.BREAK
      RemoteCommandData.empty 0 (SocketBase.init RemoteEngine.init)
      c4Command).2.2.2 (by decide)).1⟩

end lldebug
